import Mathlib

/-!
Verification of the prefect source slice: the default-executor resolution in
`src/prefect/engine/executors/__init__.py` and the secret tasks in
`src/prefect/tasks/secrets/base.py`, shallowly embedded in Lean 4.
-/

namespace Prefect

/-- Python exception values that the embedded code can raise. -/
inductive PyErr
  | valueError (msg : String)
  | importError (msg : String)
  | attrError (msg : String)
  | other (msg : String)
deriving DecidableEq, Repr

/-- Python warning values emitted by the embedded code. -/
inductive PyWarning
  | userWarning (msg : String)
deriving DecidableEq, Repr

/-! ## Default-executor resolution (`engine/executors/__init__.py`, lines 44-55) -/

/-- The executor instance bound to `DEFAULT_EXECUTOR`: one of the concrete
executor classes of the module, or a dynamically resolved custom class. -/
inductive ExecutorInstance
  | localExecutor
  | synchronousExecutor
  | daskExecutor
  | custom (id : Nat)
deriving DecidableEq, Repr

/-- An imported Python module object, identified by its dotted path. -/
abbrev ModuleObj := String

/-- A class object obtained by attribute lookup on a module. -/
abbrev ClsObj := String

/-- The ambient Python environment the module-initialization code runs in:
the result of reading `prefect.config.engine.executor` (an attribute access
on the process-wide config, deterministic within one initialization), the
behaviour of `importlib.import_module`, of `getattr` on a module, and of
calling the resolved class's constructor. Each step either returns or
raises. -/
structure ResolverEnv where
  configExecutor : Except PyErr String
  importModule : String → Except PyErr ModuleObj
  getAttr : ModuleObj → String → Except PyErr ClsObj
  instantiate : ClsObj → Except PyErr ExecutorInstance

/-- Splitting a character list at every `'.'`, keeping empty components,
exactly as Python's `str.split(".")` does. -/
def splitDotAux : List Char → List (List Char)
  | [] => [[]]
  | c :: cs =>
    match splitDotAux cs with
    | [] => [[]]
    | s :: ss => if c = '.' then [] :: s :: ss else (c :: s) :: ss

/-- Python's `cfg.split(".")`. -/
def splitDots (cfg : String) : List String :=
  (splitDotAux cfg.data).map (fun l => ⟨l⟩)

/-- Python's `".".join(parts)`. -/
def joinDots : List String → String
  | [] => ""
  | [s] => s
  | s :: ss => s ++ "." ++ joinDots ss

/-- `*module, cls_name = cfg_exec.split(".")` followed by
`".".join(module)`: everything before the last dot is the module path, the
last component is the class name. -/
def moduleAndClass (cfg : String) : String × String :=
  let parts := splitDots cfg
  (joinDots parts.dropLast, parts.getLastD "")

/-- The body of the `try:` block in `engine/executors/__init__.py`:
read the config string, split it, import the module, look up the class,
and instantiate it. Any raise aborts the block with that error. -/
def resolveAttempt (env : ResolverEnv) : Except PyErr ExecutorInstance :=
  match env.configExecutor with
  | .error e => .error e
  | .ok cfg =>
    match env.importModule (moduleAndClass cfg).1 with
    | .error e => .error e
    | .ok m =>
      match env.getAttr m (moduleAndClass cfg).2 with
      | .error e => .error e
      | .ok c => env.instantiate c

/-- The warning text built in the `except:` handler, with
`_prefect.config.engine.executor` formatted into it. -/
def warnMessage (cfg : String) : String :=
  "Could not import " ++ cfg ++ ", using prefect.engine.executors.LocalExecutor instead."

/-- Outcome of module initialization: the warnings emitted (in order) and
either the value bound to `DEFAULT_EXECUTOR` or the exception that escaped
to the importer of the module. -/
structure ResolveResult where
  warnings : List String
  outcome : Except PyErr ExecutorInstance
deriving Repr

/-- The whole `try/except` statement that binds `DEFAULT_EXECUTOR`.
On success of the `try:` body its instance is bound. On failure the bare
`except:` handler runs: it first re-reads `prefect.config.engine.executor`
to format the warning message — if that attribute access itself raises, the
new exception escapes before `warn` is called — and otherwise emits one
warning and binds `LocalExecutor()`. -/
def resolveDefaultExecutor (env : ResolverEnv) : ResolveResult :=
  match resolveAttempt env with
  | .ok e => ⟨[], .ok e⟩
  | .error _ =>
    match env.configExecutor with
    | .error e2 => ⟨[], .error e2⟩
    | .ok cfg => ⟨[warnMessage cfg], .ok .localExecutor⟩

/-! ## Secret tasks (`tasks/secrets/base.py`) -/

/-- `datetime.timedelta`, reduced to a whole number of seconds (the only
constructor the source uses is `timedelta(seconds=1)`). -/
structure Timedelta where
  seconds : Int
deriving DecidableEq, Repr

/-- A result-handler object: the `SecretResultHandler` bound to the secret
task with the given identity, or some other caller-chosen handler object. -/
inductive RHandler
  | secretHandler (taskId : Nat)
  | otherHandler (id : Nat)
deriving DecidableEq, Repr

/-- Python values that can be passed as the `result_handler` keyword
argument: `None`, a boolean, a string, or a genuine handler object. -/
inductive PyVal
  | none
  | bool (b : Bool)
  | str (s : String)
  | handler (h : RHandler)
deriving DecidableEq, Repr

/-- Python truthiness of a `PyVal`: `None` and `False` and the empty string
are falsy; every handler object is truthy. -/
def PyVal.truthy : PyVal → Bool
  | .none => false
  | .bool b => b
  | .str s => !s.isEmpty
  | .handler _ => true

/-- The keyword arguments reaching a secret-task constructor. A field is
`Option.none` when the keyword was not passed; `result_handler` carries an
arbitrary Python value so that explicitly passed falsy values are
representable. -/
structure Kwargs where
  name : Option String := none
  max_retries : Option Nat := none
  retry_delay : Option Timedelta := none
  result_handler : Option PyVal := none
deriving DecidableEq, Repr

/-- `kwargs.get("result_handler")`: the passed value, or Python `None` when
the keyword is absent. -/
def Kwargs.getResultHandler (k : Kwargs) : PyVal :=
  k.result_handler.getD PyVal.none

/-- A constructed task object: its identity (`self`) and the attributes the
constructor stored. -/
structure Task where
  id : Nat
  name : Option String
  max_retries : Option Nat
  retry_delay : Option Timedelta
  result_handler : PyVal
deriving DecidableEq, Repr

/-- Modelled from the spec: `prefect.core.task.Task.__init__` is not under
src/ (the spec puts "the generic task base class's retry/caching
bookkeeping" out of scope and describes the secret task as "an immutable
descriptor (name, retry count, retry delay)" carrying a bound result
handler), so the base constructor stores the received keyword arguments as
the task's attributes. -/
def Task.init (self : Nat) (k : Kwargs) : Task :=
  ⟨self, k.name, k.max_retries, k.retry_delay, k.getResultHandler⟩

/-- The `ValueError` raised when a truthy `result_handler` is passed. -/
def resultHandlerError : PyErr :=
  PyErr.valueError "Result Handlers for Secrets are not configurable."

/-- Outcome of running a constructor: the warnings it emitted (in order)
and either the constructed task or the exception raised. -/
structure InitResult where
  warnings : List PyWarning
  result : Except PyErr Task
deriving Repr

/-- `SecretBase.__init__(self, **kwargs)`: raise `ValueError` when
`kwargs.get("result_handler")` is truthy, otherwise overwrite
`kwargs["result_handler"]` with `SecretResultHandler(secret_task=self)` and
call `Task.__init__`. -/
def SecretBase.init (self : Nat) (kwargs : Kwargs) : InitResult :=
  if kwargs.getResultHandler.truthy then
    ⟨[], .error resultHandlerError⟩
  else
    ⟨[], .ok (Task.init self
      { kwargs with result_handler := some (PyVal.handler (RHandler.secretHandler self)) })⟩

/-- `PrefectSecret.__init__(self, name, **kwargs)`: write the positional
`name` into `kwargs`, `setdefault` `max_retries` to `2` and `retry_delay`
to `timedelta(seconds=1)`, raise `ValueError` on a truthy
`kwargs.get("result_handler")`, otherwise install
`SecretResultHandler(secret_task=self)` and call `Task.__init__`. -/
def PrefectSecret.init (self : Nat) (name : String) (kwargs : Kwargs) : InitResult :=
  let kwargs := { kwargs with
    name := some name
    max_retries := some (kwargs.max_retries.getD 2)
    retry_delay := some (kwargs.retry_delay.getD (Timedelta.mk 1)) }
  if kwargs.getResultHandler.truthy then
    ⟨[], .error resultHandlerError⟩
  else
    ⟨[], .ok (Task.init self
      { kwargs with result_handler := some (PyVal.handler (RHandler.secretHandler self)) })⟩

/-- The deprecation warning text emitted by `Secret.__init__`. -/
def secretDeprecationMsg : String :=
  "The `Secret` task is deprecated and has been renamed `PrefectSecret`."

/-- `Secret.__init__(self, *args, **kwargs)`: emit the deprecation
`UserWarning` and delegate to `PrefectSecret.__init__` unchanged. -/
def Secret.init (self : Nat) (name : String) (kwargs : Kwargs) : InitResult :=
  let r := PrefectSecret.init self name kwargs
  ⟨PyWarning.userWarning secretDeprecationMsg :: r.warnings, r.result⟩

/-! ## Secret retrieval and the secret result handler

The secret-store client `prefect.client.secrets.Secret` and the handler
`prefect.engine.result_handlers.SecretResultHandler` are collaborators whose
code is not under src/; they are modelled from the spec below. -/

/-- The ambient environment of secret retrieval: the `secrets` mapping of
the Execution Context, the `use_local_secrets` configuration flag, and the
external secret store. -/
structure SecretsEnv where
  contextSecrets : String → Option String
  use_local_secrets : Bool
  store : String → Except PyErr String

/-- Modelled from the spec: `prefect.client.secrets.Secret.get` is not
under src/ ("the secret-store client used to fetch secret values" is out of
scope). Per the spec it must "consult the Execution Context for a
pre-supplied value for `name` first"; if absent, in local-only secret mode
"absence in context is itself a fatal error for that task", and otherwise
it queries the "external secret-store collaborator, which itself may raise
a not-found error". -/
def clientSecretGet (env : SecretsEnv) (name : String) : Except PyErr String :=
  match env.contextSecrets name with
  | some v => .ok v
  | Option.none =>
    if env.use_local_secrets then
      .error (PyErr.valueError ("Local Secret \"" ++ name ++ "\" was not found."))
    else
      env.store name

/-- Modelled from the spec: the decorator
`prefect.utilities.tasks.defaults_from_attrs("name")` is not under src/;
per the `run` docstring a missing `name` argument "Defaults to the name
provided at initialization", i.e. the task attribute of the same name. -/
def defaultsFromAttrsName (t : Task) (arg : Option String) : String :=
  match arg with
  | some nm => nm
  | Option.none => t.name.getD ""

/-- `PrefectSecret.run(self, name=None)`: resolve the defaulted `name` and
return `Secret(name).get()`. -/
def PrefectSecret.run (env : SecretsEnv) (t : Task) (arg : Option String) :
    Except PyErr String :=
  clientSecretGet env (defaultsFromAttrsName t arg)

/-- `Secret` defines no `run` of its own: it inherits
`PrefectSecret.run`. -/
def Secret.run (env : SecretsEnv) (t : Task) (arg : Option String) :
    Except PyErr String :=
  PrefectSecret.run env t arg

/-- Modelled from the spec: `SecretResultHandler.write`
(`prefect.engine.result_handlers`) is not under src/. Per the spec it
"persists an opaque marker/reference instead" of the value and "relies on
`read` to re-resolve the real value on demand (e.g. by re-invoking secret
retrieval)"; the marker that lets `read` re-invoke secret retrieval is the
owning secret task's name, so `write` ignores the value and returns that
name. -/
def SecretResultHandler.write (t : Task) (_value : String) : String :=
  t.name.getD ""

/-- Modelled from the spec: `SecretResultHandler.read` re-resolves the real
value on demand by re-invoking secret retrieval on the persisted marker. -/
def SecretResultHandler.read (env : SecretsEnv) (marker : String) :
    Except PyErr String :=
  clientSecretGet env marker

/-! ## Helper lemmas -/

/-- Characterization of a successful `SecretBase` construction. -/
theorem secretBase_init_ok (self : Nat) (k : Kwargs) (t : Task)
    (h : (SecretBase.init self k).result = .ok t) :
    k.getResultHandler.truthy = false ∧
    t = Task.init self
      { k with result_handler := some (PyVal.handler (RHandler.secretHandler self)) } := by
  cases htr : k.getResultHandler.truthy <;> simp [SecretBase.init, htr] at h
  exact ⟨rfl, h.symm⟩

/-- Characterization of a successful `PrefectSecret` construction. -/
theorem prefectSecret_init_ok (self : Nat) (n : String) (k : Kwargs) (t : Task)
    (h : (PrefectSecret.init self n k).result = .ok t) :
    k.getResultHandler.truthy = false ∧
    t = Task.init self
      { k with
        name := some n
        max_retries := some (k.max_retries.getD 2)
        retry_delay := some (k.retry_delay.getD (Timedelta.mk 1))
        result_handler := some (PyVal.handler (RHandler.secretHandler self)) } := by
  have hcond : ({ k with
      name := some n
      max_retries := some (k.max_retries.getD 2)
      retry_delay := some (k.retry_delay.getD (Timedelta.mk 1)) } : Kwargs).getResultHandler
        = k.getResultHandler := rfl
  cases htr : k.getResultHandler.truthy <;>
    simp [PrefectSecret.init, hcond, htr] at h
  exact ⟨rfl, h.symm⟩

/-- `Secret` construction has the same `result` as `PrefectSecret`. -/
theorem secret_init_result (self : Nat) (n : String) (k : Kwargs) :
    (Secret.init self n k).result = (PrefectSecret.init self n k).result := rfl

/-- `PrefectSecret.__init__` emits no warnings on either path. -/
theorem prefectSecret_init_no_warnings (self : Nat) (n : String) (k : Kwargs) :
    (PrefectSecret.init self n k).warnings = [] := by
  simp only [PrefectSecret.init]
  split <;> rfl

/-! ## Concrete fixtures used by witnesses and counterexamples -/

/-- Environment whose configured executor string is `"nonexistent.module.Klass"`
and whose module import always fails. -/
def nonexistentEnv : ResolverEnv where
  configExecutor := .ok "nonexistent.module.Klass"
  importModule := fun m => .error (.importError ("No module named " ++ m))
  getAttr := fun _ a => .error (.attrError a)
  instantiate := fun _ => .ok (.custom 0)

/-- Environment in which reading `prefect.config.engine.executor` itself
raises. -/
def configErrorEnv : ResolverEnv where
  configExecutor := .error (.other "engine.executor config access failed")
  importModule := fun _ => .ok "prefect.engine.executors"
  getAttr := fun _ c => .ok c
  instantiate := fun _ => .ok (.custom 1)

/-- The task produced by `PrefectSecret("GITHUB_TOKEN")`. -/
def taskGH : Task :=
  ⟨0, some "GITHUB_TOKEN", some 2, some (Timedelta.mk 1),
    PyVal.handler (RHandler.secretHandler 0)⟩

/-- The task produced by
`PrefectSecret("DB_PASSWORD", max_retries=5, retry_delay=timedelta(seconds=30))`. -/
def taskDb : Task :=
  ⟨4, some "DB_PASSWORD", some 5, some (Timedelta.mk 30),
    PyVal.handler (RHandler.secretHandler 4)⟩

/-- The task produced by `PrefectSecret("AWS_CREDENTIALS", name="other")`. -/
def taskAws : Task :=
  ⟨3, some "AWS_CREDENTIALS", some 2, some (Timedelta.mk 1),
    PyVal.handler (RHandler.secretHandler 3)⟩

/-- The task produced by `SecretBase()` as object number 5. -/
def taskBase5 : Task :=
  ⟨5, none, none, none, PyVal.handler (RHandler.secretHandler 5)⟩

/-- The task produced by `PrefectSecret("topsecret")`: a secret whose name
coincides with its value. -/
def taskTop : Task :=
  ⟨1, some "topsecret", some 2, some (Timedelta.mk 1),
    PyVal.handler (RHandler.secretHandler 1)⟩

/-- A secrets environment whose Execution Context maps `"GITHUB_TOKEN"` to
`"topsecret"` and whose store knows no secrets. -/
def envGH : SecretsEnv where
  contextSecrets := fun nm => if nm = "GITHUB_TOKEN" then some "topsecret" else none
  use_local_secrets := false
  store := fun nm => .error (PyErr.valueError ("Secret " ++ nm ++ " not found"))

/-! ## Claims -/

/-- Claim C1: whenever reading the configured executor string succeeds and
the resolution attempt (split, import, attribute lookup, instantiation)
fails, module initialization does not raise: it emits exactly one warning —
whose text names the configured string — and binds `DEFAULT_EXECUTOR` to a
`LocalExecutor` instance. -/
theorem C1_resolver_fallback (env : ResolverEnv) (cfg : String) (e : PyErr)
    (hcfg : env.configExecutor = .ok cfg)
    (hfail : resolveAttempt env = .error e) :
    resolveDefaultExecutor env =
      ⟨[warnMessage cfg], .ok ExecutorInstance.localExecutor⟩
    ∧ warnMessage cfg =
      "Could not import " ++ cfg ++
        ", using prefect.engine.executors.LocalExecutor instead." := by
  constructor
  · simp [resolveDefaultExecutor, hfail, hcfg]
  · rfl

/-- Witness for C1: the configured string `"nonexistent.module.Klass"` with a
failing import yields one warning and a `LocalExecutor`. -/
theorem C1_resolver_fallback_witness :
    resolveDefaultExecutor nonexistentEnv =
      ⟨[warnMessage "nonexistent.module.Klass"], .ok ExecutorInstance.localExecutor⟩
    ∧ warnMessage "nonexistent.module.Klass" =
      "Could not import nonexistent.module.Klass, using prefect.engine.executors.LocalExecutor instead." :=
  ⟨(C1_resolver_fallback nonexistentEnv "nonexistent.module.Klass"
      (PyErr.importError "No module named nonexistent.module") rfl rfl).1, rfl⟩

/-- Claim C8: the fallback only applies when reading the configured executor
string succeeds; the `except:` handler re-reads
`prefect.config.engine.executor` to format its warning, so when that access
raises, no warning is emitted and the exception escapes module
initialization. -/
theorem C8_config_error_escapes (env : ResolverEnv) (e : PyErr)
    (h : env.configExecutor = .error e) :
    resolveDefaultExecutor env = ⟨[], .error e⟩ := by
  simp [resolveDefaultExecutor, resolveAttempt, h]

/-- Witness for C8 at a concrete environment whose config access raises. -/
theorem C8_config_error_escapes_witness :
    resolveDefaultExecutor configErrorEnv =
      ⟨[], .error (PyErr.other "engine.executor config access failed")⟩ :=
  C8_config_error_escapes configErrorEnv
    (PyErr.other "engine.executor config access failed") rfl

/-- Claim C2: passing a truthy `result_handler` keyword to any of the three
secret-task constructors raises `ValueError` at construction time: no task
is ever produced. -/
theorem C2_result_handler_rejected (self : Nat) (n : String) (k : Kwargs)
    (v : PyVal) (hv : v.truthy = true) :
    (SecretBase.init self { k with result_handler := some v }).result =
      .error resultHandlerError
    ∧ (PrefectSecret.init self n { k with result_handler := some v }).result =
      .error resultHandlerError
    ∧ (Secret.init self n { k with result_handler := some v }).result =
      .error resultHandlerError := by
  refine ⟨?_, ?_, ?_⟩ <;>
    simp [SecretBase.init, PrefectSecret.init, Secret.init,
      Kwargs.getResultHandler, hv]

/-- Witness for C2: a concrete handler object passed as `result_handler` is
rejected by all three constructors. -/
theorem C2_result_handler_rejected_witness :
    (PyVal.handler (RHandler.otherHandler 7)).truthy = true
    ∧ ((SecretBase.init 0
          { result_handler := some (PyVal.handler (RHandler.otherHandler 7)) }).result =
        .error resultHandlerError
      ∧ (PrefectSecret.init 0 "GITHUB_TOKEN"
          { result_handler := some (PyVal.handler (RHandler.otherHandler 7)) }).result =
        .error resultHandlerError
      ∧ (Secret.init 0 "GITHUB_TOKEN"
          { result_handler := some (PyVal.handler (RHandler.otherHandler 7)) }).result =
        .error resultHandlerError) :=
  ⟨rfl, C2_result_handler_rejected 0 "GITHUB_TOKEN" {}
    (PyVal.handler (RHandler.otherHandler 7)) rfl⟩

/-- Claim C4: every successfully constructed secret task carries as its
result handler a `SecretResultHandler` bound to that very task instance
(`secret_task=self`), whatever keyword arguments were passed. -/
theorem C4_bound_secret_handler (self : Nat) (n : String) (k : Kwargs) (t : Task) :
    ((SecretBase.init self k).result = .ok t →
      t.id = self ∧ t.result_handler = PyVal.handler (RHandler.secretHandler t.id))
    ∧ ((PrefectSecret.init self n k).result = .ok t →
      t.id = self ∧ t.result_handler = PyVal.handler (RHandler.secretHandler t.id))
    ∧ ((Secret.init self n k).result = .ok t →
      t.id = self ∧ t.result_handler = PyVal.handler (RHandler.secretHandler t.id)) := by
  refine ⟨fun h => ?_, fun h => ?_, fun h => ?_⟩
  · obtain ⟨-, rfl⟩ := secretBase_init_ok self k t h
    exact ⟨rfl, rfl⟩
  · obtain ⟨-, rfl⟩ := prefectSecret_init_ok self n k t h
    exact ⟨rfl, rfl⟩
  · rw [secret_init_result] at h
    obtain ⟨-, rfl⟩ := prefectSecret_init_ok self n k t h
    exact ⟨rfl, rfl⟩

/-- Witness for C4: a concrete `SecretBase()` construction carries the
handler bound to itself. -/
theorem C4_bound_secret_handler_witness :
    (SecretBase.init 5 ({} : Kwargs)).result = .ok taskBase5
    ∧ taskBase5.id = 5
    ∧ taskBase5.result_handler =
        PyVal.handler (RHandler.secretHandler taskBase5.id) :=
  ⟨rfl, (C4_bound_secret_handler 5 "x" {} taskBase5).1 rfl⟩

/-- Claim C9: an explicitly passed falsy `result_handler` (Python `None`,
`False`, `""`) does not raise: construction succeeds and the supplied value
is silently replaced by the task-bound `SecretResultHandler`, in all three
constructors. -/
theorem C9_falsy_handler_accepted (self : Nat) (n : String) (k : Kwargs)
    (v : PyVal) (hv : v.truthy = false) :
    (∃ t, (SecretBase.init self { k with result_handler := some v }).result = .ok t
      ∧ t.result_handler = PyVal.handler (RHandler.secretHandler self))
    ∧ (∃ t, (PrefectSecret.init self n { k with result_handler := some v }).result = .ok t
      ∧ t.result_handler = PyVal.handler (RHandler.secretHandler self))
    ∧ (∃ t, (Secret.init self n { k with result_handler := some v }).result = .ok t
      ∧ t.result_handler = PyVal.handler (RHandler.secretHandler self)) := by
  have h1 : (SecretBase.init self { k with result_handler := some v }).result =
      .ok (Task.init self
        { k with result_handler := some (PyVal.handler (RHandler.secretHandler self)) }) := by
    simp [SecretBase.init, Kwargs.getResultHandler, hv]
  have h2 : (PrefectSecret.init self n { k with result_handler := some v }).result =
      .ok (Task.init self
        { k with
          name := some n
          max_retries := some (k.max_retries.getD 2)
          retry_delay := some (k.retry_delay.getD (Timedelta.mk 1))
          result_handler := some (PyVal.handler (RHandler.secretHandler self)) }) := by
    simp [PrefectSecret.init, Kwargs.getResultHandler, hv]
  have h3 : (Secret.init self n { k with result_handler := some v }).result =
      .ok (Task.init self
        { k with
          name := some n
          max_retries := some (k.max_retries.getD 2)
          retry_delay := some (k.retry_delay.getD (Timedelta.mk 1))
          result_handler := some (PyVal.handler (RHandler.secretHandler self)) }) := by
    rw [secret_init_result]; exact h2
  exact ⟨⟨_, h1, rfl⟩, ⟨_, h2, rfl⟩, ⟨_, h3, rfl⟩⟩

/-- Witness for C9: explicitly passing Python `None` as `result_handler`
succeeds and installs the bound handler. -/
theorem C9_falsy_handler_accepted_witness :
    PyVal.none.truthy = false
    ∧ (∃ t, (SecretBase.init 0 { result_handler := some PyVal.none }).result = .ok t
      ∧ t.result_handler = PyVal.handler (RHandler.secretHandler 0))
    ∧ (∃ t, (PrefectSecret.init 0 "GITHUB_TOKEN"
          { result_handler := some PyVal.none }).result = .ok t
      ∧ t.result_handler = PyVal.handler (RHandler.secretHandler 0))
    ∧ (∃ t, (Secret.init 0 "GITHUB_TOKEN"
          { result_handler := some PyVal.none }).result = .ok t
      ∧ t.result_handler = PyVal.handler (RHandler.secretHandler 0)) := by
  have c := C9_falsy_handler_accepted 0 "GITHUB_TOKEN" {} PyVal.none rfl
  exact ⟨rfl, c.1, c.2.1, c.2.2⟩

/-- Claim C10: every successfully constructed `PrefectSecret` with secret
name `n` has `n` as its task name, even when the keyword arguments carried a
conflicting `name`. -/
theorem C10_name_unconditional (self : Nat) (n : String) (k : Kwargs) (t : Task)
    (h : (PrefectSecret.init self n k).result = .ok t) :
    t.name = some n := by
  obtain ⟨-, rfl⟩ := prefectSecret_init_ok self n k t h
  rfl

/-- Witness for C10: a conflicting `name` keyword is overridden by the
positional secret name. -/
theorem C10_name_unconditional_witness :
    (PrefectSecret.init 3 "AWS_CREDENTIALS" { name := some "other" }).result =
      .ok taskAws
    ∧ taskAws.name = some "AWS_CREDENTIALS" :=
  ⟨rfl, C10_name_unconditional 3 "AWS_CREDENTIALS" { name := some "other" } taskAws rfl⟩

/-- Claim C6: a `PrefectSecret` constructed without explicit retry settings
gets `max_retries = 2` and `retry_delay = timedelta(seconds=1)`, and
caller-supplied values for either are kept unchanged. -/
theorem C6_retry_defaults (self : Nat) (n : String) (k : Kwargs) (t : Task)
    (h : (PrefectSecret.init self n k).result = .ok t) :
    (k.max_retries = none → t.max_retries = some 2)
    ∧ (k.retry_delay = none → t.retry_delay = some (Timedelta.mk 1))
    ∧ (∀ m, k.max_retries = some m → t.max_retries = some m)
    ∧ (∀ d, k.retry_delay = some d → t.retry_delay = some d) := by
  obtain ⟨-, rfl⟩ := prefectSecret_init_ok self n k t h
  exact ⟨fun hm => by simp [Task.init, hm], fun hd => by simp [Task.init, hd],
    fun m hm => by simp [Task.init, hm], fun d hd => by simp [Task.init, hd]⟩

/-- Witness for C6: defaults at `PrefectSecret("GITHUB_TOKEN")`, overrides at
`PrefectSecret("DB_PASSWORD", max_retries=5, retry_delay=timedelta(seconds=30))`. -/
theorem C6_retry_defaults_witness :
    ((PrefectSecret.init 0 "GITHUB_TOKEN" {}).result = .ok taskGH
      ∧ taskGH.max_retries = some 2
      ∧ taskGH.retry_delay = some (Timedelta.mk 1))
    ∧ ((PrefectSecret.init 4 "DB_PASSWORD"
          { max_retries := some 5, retry_delay := some (Timedelta.mk 30) }).result =
        .ok taskDb
      ∧ taskDb.max_retries = some 5
      ∧ taskDb.retry_delay = some (Timedelta.mk 30)) := by
  have c1 := C6_retry_defaults 0 "GITHUB_TOKEN" {} taskGH rfl
  have c2 := C6_retry_defaults 4 "DB_PASSWORD"
    { max_retries := some 5, retry_delay := some (Timedelta.mk 30) } taskDb rfl
  exact ⟨⟨rfl, c1.1 rfl, c1.2.1 rfl⟩,
    ⟨rfl, c2.2.2.1 5 rfl, c2.2.2.2 (Timedelta.mk 30) rfl⟩⟩

/-- Claim C5: `PrefectSecret.run(name)` returns exactly
`Secret(name).get()`; without a `name` argument it uses the name the task
was constructed with; and `get` consults the Execution Context first,
querying the store only when the context lacks the name (and the engine is
not in local-only secret mode). -/
theorem C5_run_contract (env : SecretsEnv) (self : Nat) (n : String)
    (k : Kwargs) (t : Task)
    (h : (PrefectSecret.init self n k).result = .ok t) :
    (∀ nm, PrefectSecret.run env t (some nm) = clientSecretGet env nm)
    ∧ PrefectSecret.run env t none = clientSecretGet env n
    ∧ (∀ nm v, env.contextSecrets nm = some v → clientSecretGet env nm = .ok v)
    ∧ (∀ nm, env.contextSecrets nm = none → env.use_local_secrets = false →
        clientSecretGet env nm = env.store nm) := by
  obtain ⟨-, rfl⟩ := prefectSecret_init_ok self n k t h
  exact ⟨fun nm => rfl, rfl,
    fun nm v hc => by simp [clientSecretGet, hc],
    fun nm hc hl => by simp [clientSecretGet, hc, hl]⟩

/-- Witness for C5: `PrefectSecret("GITHUB_TOKEN")` run with no argument
retrieves the context-supplied value; an explicit other name falls through
to the store. -/
theorem C5_run_contract_witness :
    (PrefectSecret.init 0 "GITHUB_TOKEN" {}).result = .ok taskGH
    ∧ PrefectSecret.run envGH taskGH none = clientSecretGet envGH "GITHUB_TOKEN"
    ∧ PrefectSecret.run envGH taskGH (some "OTHER") = clientSecretGet envGH "OTHER"
    ∧ clientSecretGet envGH "GITHUB_TOKEN" = .ok "topsecret"
    ∧ clientSecretGet envGH "OTHER" = envGH.store "OTHER" := by
  have c := C5_run_contract envGH 0 "GITHUB_TOKEN" {} taskGH rfl
  exact ⟨rfl, c.2.1, c.1 "OTHER",
    c.2.2.1 "GITHUB_TOKEN" "topsecret" rfl, c.2.2.2 "OTHER" rfl rfl⟩

/-- Claim C7: `Secret` is a pure compatibility wrapper over `PrefectSecret`:
it emits exactly the one deprecation `UserWarning` (which `PrefectSecret`
never emits), its construction result is identical, and its `run` is the
inherited `PrefectSecret.run`. -/
theorem C7_secret_alias_equivalent (self : Nat) (n : String) (k : Kwargs) :
    (Secret.init self n k).warnings =
      [PyWarning.userWarning secretDeprecationMsg]
    ∧ (Secret.init self n k).result = (PrefectSecret.init self n k).result
    ∧ (PrefectSecret.init self n k).warnings = []
    ∧ Secret.run = PrefectSecret.run := by
  refine ⟨?_, rfl, prefectSecret_init_no_warnings self n k, rfl⟩
  show PyWarning.userWarning secretDeprecationMsg ::
    (PrefectSecret.init self n k).warnings = _
  rw [prefectSecret_init_no_warnings]

/-- Claim C3 counterexample: `write` returns the owning task's secret name,
so for the secret task constructed as `PrefectSecret("topsecret")` the
write of the value `"topsecret"` is the string `"topsecret"` itself —
refuting "write(v) returns an output not equal to v" for every secret
value v. -/
theorem C3_roundtrip_counterexample :
    (PrefectSecret.init 1 "topsecret" {}).result = .ok taskTop
    ∧ SecretResultHandler.write taskTop "topsecret" = "topsecret" :=
  ⟨rfl, rfl⟩

/-- Claim C3 as amended: `write v` is the owning task's secret name — so it
differs from `v` whenever `v` differs from that name — and `read` of
`write v` reconstructs `v` whenever secret retrieval for that name yields
`v`. -/
theorem C3_write_read_roundtrip (env : SecretsEnv) (t : Task) (nm v : String)
    (hname : t.name = some nm) (hv : v ≠ nm)
    (henv : clientSecretGet env nm = .ok v) :
    SecretResultHandler.write t v = nm
    ∧ SecretResultHandler.write t v ≠ v
    ∧ SecretResultHandler.read env (SecretResultHandler.write t v) = .ok v := by
  have hw : SecretResultHandler.write t v = nm := by
    simp [SecretResultHandler.write, hname]
  refine ⟨hw, ?_, ?_⟩
  · rw [hw]; exact Ne.symm hv
  · rw [hw]; exact henv

/-- Witness for the amended C3 at `PrefectSecret("GITHUB_TOKEN")` with
secret value `"topsecret"`. -/
theorem C3_write_read_roundtrip_witness :
    taskGH.name = some "GITHUB_TOKEN"
    ∧ "topsecret" ≠ "GITHUB_TOKEN"
    ∧ clientSecretGet envGH "GITHUB_TOKEN" = .ok "topsecret"
    ∧ (SecretResultHandler.write taskGH "topsecret" = "GITHUB_TOKEN"
      ∧ SecretResultHandler.write taskGH "topsecret" ≠ "topsecret"
      ∧ SecretResultHandler.read envGH
          (SecretResultHandler.write taskGH "topsecret") = .ok "topsecret") := by
  refine ⟨rfl, by decide, rfl, ?_⟩
  exact C3_write_read_roundtrip envGH taskGH "GITHUB_TOKEN" "topsecret"
    rfl (by decide) rfl

end Prefect
